import Mathlib

/-!
Shallow embedding of the console-plugin reconciler
(controllers/consoleplugin/consoleplugin_reconciler.go) and proofs of the
specified properties. Cluster calls are modelled as emitted actions paired
with an environment that decides each call result; helper functions from
packages of this repository that are not part of the excerpt
(pkg/helper, controllers/reconcilers) are modelled from the spec and say so
in their doc comments.
-/

namespace NetObserv

/-- Error values returned by cluster calls are opaque strings. -/
abbrev Err := String

/-- Kinds of cluster objects touched by the console-plugin reconciler. -/
inductive Kind where
  | deployment
  | service
  | hpa
  | serviceAccount
  | configMap
  | serviceMonitor
  | consolePlugin
  | clusterRole
  | clusterRoleBinding
  deriving DecidableEq, Repr

/-- Operations issued against the cluster API. -/
inductive Op where
  | get
  | create
  | update
  | delete
  deriving DecidableEq, Repr

/-- One cluster API call: an operation on a kind. -/
structure Action where
  op : Op
  kind : Kind
  deriving DecidableEq, Repr

/-- The cluster environment decides the outcome of each write call:
`none` is success (for a delete, also covers not-found, which the manager
treats as success), `some e` is a failure with error `e`. -/
structure ClusterEnv where
  respond : Action → Option Err

/-- Number of actions with the given operation and kind in a call trace. -/
def countOp (o : Op) (k : Kind) (acts : List Action) : Nat :=
  (acts.filter (fun a => a.op == o && a.kind == k)).length

/-- ChangeReport (pkg/helper): accumulates human-readable reasons why a
resource was deemed changed; observability only. -/
structure ChangeReport where
  title : String
  reasons : List String
  deriving DecidableEq, Repr

/-- ChangeReport.Add appends one reason. -/
def ChangeReport.Add (r : ChangeReport) (s : String) : ChangeReport :=
  { r with reasons := r.reasons ++ [s] }

/-- helper.NewChangeReport: a fresh report with no reasons. -/
def NewChangeReport (title : String) : ChangeReport :=
  { title := title, reasons := [] }

/-- One port entry of a Service spec (corev1.ServicePort): only the fields
the reconciler reads. -/
structure ServicePort where
  port : Int
  protocol : String
  deriving DecidableEq, Repr

/-- Service spec: the list of port entries. -/
structure ServiceSpec where
  ports : List ServicePort
  deriving DecidableEq, Repr

/-- A corev1.Service as seen by the comparator: its spec plus metadata
labels, which stand for every field outside the port list (possibly
mutated by another controller). -/
structure Service where
  labels : List (String × String)
  spec : ServiceSpec
  deriving DecidableEq, Repr

/-- Autoscaler section of the console-plugin spec
(flowslatest.FlowCollectorHPA): the disabled flag plus the desired
replica bounds and metrics. -/
structure FlowCollectorHPA where
  disabled : Bool
  minReplicas : Int
  maxReplicas : Int
  metrics : List String
  deriving DecidableEq, Repr

/-- Modelled from the spec: helper.HPADisabled (pkg/helper, not in the
excerpt) — reports whether the autoscaler option of the desired
specification is disabled. -/
def HPADisabled (asc : FlowCollectorHPA) : Bool :=
  asc.disabled

/-- The console-plugin section of the desired specification
(flowslatest.FlowCollectorConsolePlugin, aliased pluginSpec in the
source): the fields the reconciler reads. -/
structure pluginSpec where
  Port : Int
  Register : Bool
  Replicas : Int
  Autoscaler : FlowCollectorHPA
  deriving DecidableEq, Repr

/-- serviceNeedsUpdate: the existing service is unchanged when some port
entry carries the desired port number with protocol TCP; otherwise it is
changed and the reason "Port changed" is reported. Translation of the
source loop with early return into an any-scan. -/
def serviceNeedsUpdate (svc : Service) (desired : pluginSpec)
    (report : ChangeReport) : Bool × ChangeReport :=
  if svc.spec.ports.any (fun p => p.port == desired.Port && p.protocol == "TCP") then
    (false, report)
  else
    (true, report.Add "Port changed")

/-- reconcileService, service part: create when the cached existence flag
is off, update when the comparator says changed, else nothing. The
service-monitor tail of the source function is kept separate below. -/
def reconcileServiceCore (env : ClusterEnv) (present : Bool) (oldSvc : Service)
    (desired : pluginSpec) (report : ChangeReport) : List Action × Option Err :=
  if !present then
    ([⟨Op.create, Kind.service⟩], env.respond ⟨Op.create, Kind.service⟩)
  else if (serviceNeedsUpdate oldSvc desired report).fst then
    ([⟨Op.update, Kind.service⟩], env.respond ⟨Op.update, Kind.service⟩)
  else
    ([], none)

/-- Modelled from the spec: reconcilers.GenericReconcile (controllers/
reconcilers, not in the excerpt) — the one shared create-if-absent /
update-if-changed path used for conditionally registered kinds, with the
change decision delegated to the supplied predicate result. -/
def GenericReconcile (env : ClusterEnv) (k : Kind) (present : Bool)
    (changed : Bool) : List Action × Option Err :=
  if !present then
    ([⟨Op.create, k⟩], env.respond ⟨Op.create, k⟩)
  else if changed then
    ([⟨Op.update, k⟩], env.respond ⟨Op.update, k⟩)
  else
    ([], none)

/-- reconcileService: the service core, then, only when the cluster
supports the service-monitor kind, the generic path for the
service-monitor (its change-predicate outcome is the input smChanged). -/
def reconcileService (env : ClusterEnv) (present : Bool) (oldSvc : Service)
    (desired : pluginSpec) (hasSvcMonitor smPresent smChanged : Bool) :
    List Action × Option Err :=
  let report := NewChangeReport "Console service"
  match reconcileServiceCore env present oldSvc desired report with
  | (acts, some e) => (acts, some e)
  | (acts, none) =>
    if hasSvcMonitor then
      let m := GenericReconcile env Kind.serviceMonitor smPresent smChanged
      (acts ++ m.fst, m.snd)
    else
      (acts, none)

/-- A corev1.ConfigMap as the reconciler sees it: its key/value Data. The
Go map is embedded as an association list where lookup finds the first
binding, matching map semantics on duplicate-free keys. -/
structure ConfigMap where
  data : List (String × String)
  deriving DecidableEq, Repr

/-- DeepEqual on the Data maps (reflect.DeepEqual of two Go maps): equal
exactly when every key present in either holds the same value in both —
a mapping equality, insensitive to the order bindings are listed in. -/
def deepEqualData (a b : List (String × String)) : Bool :=
  ((a.map Prod.fst) ++ (b.map Prod.fst)).all (fun k => a.lookup k == b.lookup k)

/-- reconcileConfigMap: create when absent, update when the freshly built
Data differs from the cached Data under deepEqualData, else nothing; the
digest produced by the builder is returned on success. -/
def reconcileConfigMap (env : ClusterEnv) (present : Bool)
    (oldCM newCM : ConfigMap) (configDigest : String) :
    List Action × Except Err String :=
  if !present then
    match env.respond ⟨Op.create, Kind.configMap⟩ with
    | some e => ([⟨Op.create, Kind.configMap⟩], Except.error e)
    | none => ([⟨Op.create, Kind.configMap⟩], Except.ok configDigest)
  else if !(deepEqualData newCM.data oldCM.data) then
    match env.respond ⟨Op.update, Kind.configMap⟩ with
    | some e => ([⟨Op.update, Kind.configMap⟩], Except.error e)
    | none => ([⟨Op.update, Kind.configMap⟩], Except.ok configDigest)
  else
    ([], Except.ok configDigest)

/-- Pod template of a deployment: the fields the deployment comparator
reads (container image, environment, resource requests, annotations). -/
structure PodTemplate where
  containerImage : String
  env : List (String × String)
  resources : List (String × String)
  annotations : List (String × String)
  deriving DecidableEq, Repr

/-- An appsv1.Deployment as the comparator sees it: replica count and pod
template. Fields the cluster mutates out-of-band (status, revision
annotations) are outside this model, as the comparator must ignore them. -/
structure Deployment where
  replicas : Int
  template : PodTemplate
  deriving DecidableEq, Repr

/-- Modelled from the spec: helper.DeploymentChanged (pkg/helper, not in
the excerpt) — changed when the container image, environment, resource
requests or pod template annotations differ, or, only when checkReplicas
is set (autoscaling disabled), when the existing replica count differs
from the desired one. -/
def DeploymentChanged (old newd : Deployment) (checkReplicas : Bool)
    (replicas : Int) (report : ChangeReport) : Bool × ChangeReport :=
  if old.template.containerImage != newd.template.containerImage then
    (true, report.Add "Image changed")
  else if old.template.env != newd.template.env then
    (true, report.Add "Environment changed")
  else if old.template.resources != newd.template.resources then
    (true, report.Add "Resources changed")
  else if old.template.annotations != newd.template.annotations then
    (true, report.Add "Annotations changed")
  else if checkReplicas && old.replicas != replicas then
    (true, report.Add "Replicas changed")
  else
    (false, report)

/-- Modelled from the spec: CertWatcher.AnnotatePod (pkg, not in the
excerpt) — mutates the pod template in place with annotations derived
from the watched certificate content. -/
def annotatePod (t : PodTemplate) (certAnnots : List (String × String)) :
    PodTemplate :=
  { t with annotations := t.annotations ++ certAnnots }

/-- reconcileDeployment: annotate the freshly built pod template with the
certificate reference (aborting on annotation failure), then create when
absent, update when helper.DeploymentChanged with
checkReplicas = HPADisabled(autoscaler) says changed, else only the
observability rollout check runs. -/
def reconcileDeployment (env : ClusterEnv) (present : Bool)
    (old newDepl : Deployment) (certAnnots : List (String × String))
    (annotateErr : Option Err) (desired : pluginSpec) :
    List Action × Option Err :=
  let report := NewChangeReport "Console deployment"
  match annotateErr with
  | some e => ([], some e)
  | none =>
    let annotated : Deployment :=
      { newDepl with template := annotatePod newDepl.template certAnnots }
    if !present then
      ([⟨Op.create, Kind.deployment⟩], env.respond ⟨Op.create, Kind.deployment⟩)
    else if (DeploymentChanged old annotated (HPADisabled desired.Autoscaler)
        desired.Replicas report).fst then
      ([⟨Op.update, Kind.deployment⟩], env.respond ⟨Op.update, Kind.deployment⟩)
    else
      ([], none)

/-- An ascv2.HorizontalPodAutoscaler as the comparator sees it. -/
structure HPA where
  minReplicas : Int
  maxReplicas : Int
  metrics : List String
  deriving DecidableEq, Repr

/-- Modelled from the spec: helper.AutoScalerChanged (pkg/helper, not in
the excerpt) — changed when the target replica bounds or target metrics
differ from the desired autoscaler policy. -/
def AutoScalerChanged (old : HPA) (desired : FlowCollectorHPA)
    (report : ChangeReport) : Bool × ChangeReport :=
  if old.minReplicas != desired.minReplicas
      || old.maxReplicas != desired.maxReplicas
      || old.metrics != desired.metrics then
    (true, report.Add "Autoscaler changed")
  else
    (false, report)

/-- Modelled from the spec: NamespacedObjectManager.TryDelete
(controllers/reconcilers, not in the excerpt) — deletes the resource when
it is cached as existing; not-found counts as success (the environment
answers none for it). -/
def TryDelete (env : ClusterEnv) (present : Bool) (k : Kind) :
    List Action × Option Err :=
  if present then
    ([⟨Op.delete, k⟩], env.respond ⟨Op.delete, k⟩)
  else
    ([], none)

/-- reconcileHPA: when the autoscaler option is disabled the object is
best-effort deleted and the outcome of that delete is dropped; otherwise
create when absent, update when helper.AutoScalerChanged says changed. -/
def reconcileHPA (env : ClusterEnv) (present : Bool) (oldHPA : HPA)
    (desired : pluginSpec) : List Action × Option Err :=
  let report := NewChangeReport "Console autoscaler"
  if HPADisabled desired.Autoscaler then
    ((TryDelete env present Kind.hpa).fst, none)
  else if !present then
    ([⟨Op.create, Kind.hpa⟩], env.respond ⟨Op.create, Kind.hpa⟩)
  else if (AutoScalerChanged oldHPA desired.Autoscaler report).fst then
    ([⟨Op.update, Kind.hpa⟩], env.respond ⟨Op.update, Kind.hpa⟩)
  else
    ([], none)

/-- Service section of the cluster-scoped console-plugin registration
object (osv1alpha1.ConsolePlugin.Spec.Service). -/
structure ConsolePluginService where
  name : String
  nspace : String
  port : Int
  deriving DecidableEq, Repr

/-- The cluster-scoped console-plugin registration object: its service
reference plus a display name standing for every other field. -/
structure OSConsolePlugin where
  displayName : String
  service : ConsolePluginService
  deriving DecidableEq, Repr

/-- pluginNeedsUpdate: the existing registration object needs an update
exactly when its service port differs from the desired port. -/
def pluginNeedsUpdate (plg : OSConsolePlugin) (desired : pluginSpec) : Bool :=
  plg.service.port != desired.Port

/-- Result of the direct Get of the cluster-scoped registration object. -/
inductive PluginGet where
  | ok (plg : OSConsolePlugin)
  | notFound
  | err (e : Err)
  deriving Repr

/-- reconcilePlugin: Get the cluster-scoped object directly; a non-not-found
read error aborts; not-found takes the create branch; otherwise update
exactly when pluginNeedsUpdate. -/
def reconcilePlugin (env : ClusterEnv) (get : PluginGet)
    (desired : pluginSpec) : List Action × Option Err :=
  match get with
  | PluginGet.err e => ([⟨Op.get, Kind.consolePlugin⟩], some e)
  | PluginGet.notFound =>
    ([⟨Op.get, Kind.consolePlugin⟩, ⟨Op.create, Kind.consolePlugin⟩],
      env.respond ⟨Op.create, Kind.consolePlugin⟩)
  | PluginGet.ok oldPlg =>
    if pluginNeedsUpdate oldPlg desired then
      ([⟨Op.get, Kind.consolePlugin⟩, ⟨Op.update, Kind.consolePlugin⟩],
        env.respond ⟨Op.update, Kind.consolePlugin⟩)
    else
      ([⟨Op.get, Kind.consolePlugin⟩], none)

/-- The name under which the plugin registers (constants.PluginName). -/
def PluginName : String := "netobserv-plugin"

/-- Modelled from the spec: helper.ContainsString (pkg/helper, not in the
excerpt) — string membership in a list. -/
def ContainsString (l : List String) (s : String) : Bool :=
  l.contains s

/-- Modelled from the spec: helper.RemoveAllStrings (pkg/helper, not in
the excerpt) — removes every occurrence of the string from the list. -/
def RemoveAllStrings (l : List String) (s : String) : List String :=
  l.filter (fun x => x != s)

/-- The Console operator resource: its registered plugin-name list. -/
structure Console where
  plugins : List String
  deriving DecidableEq, Repr

/-- Result of reading the Console operator resource. -/
inductive ConsoleGet where
  | ok (c : Console)
  | err (e : Err)
  deriving Repr

/-- checkAutoPatch: a failed read of the Console resource is logged and
tolerated (nil returned, nothing written); on a successful read the
plugin name is appended when registration is desired and absent, every
occurrence is removed when registration is undesired and present, and the
error of that one write is surfaced; otherwise nothing is written. Each
write is recorded as the plugin list written back. -/
def checkAutoPatch (get : ConsoleGet) (register : Bool)
    (updateErr : Option Err) : List (List String) × Option Err :=
  match get with
  | ConsoleGet.err _ => ([], none)
  | ConsoleGet.ok console =>
    let registered := ContainsString console.plugins PluginName
    if register && !registered then
      ([console.plugins ++ [PluginName]], updateErr)
    else if !register && registered then
      ([RemoveAllStrings console.plugins PluginName], updateErr)
    else
      ([], none)

/-- reconcilePermissions: when the service account is cached absent it is
created and nothing else runs; otherwise the cluster role and the cluster
role binding are reconciled unconditionally through their self-healing
paths (ReconcileClusterRole / ReconcileClusterRoleBinding, modelled from
the spec as update-if-drifted via the supplied drift flags). -/
def reconcilePermissions (env : ClusterEnv) (saPresent : Bool)
    (crDrifted crbDrifted : Bool) : List Action × Option Err :=
  if !saPresent then
    ([⟨Op.create, Kind.serviceAccount⟩],
      env.respond ⟨Op.create, Kind.serviceAccount⟩)
  else
    let cr : List Action × Option Err :=
      if crDrifted then
        ([⟨Op.update, Kind.clusterRole⟩], env.respond ⟨Op.update, Kind.clusterRole⟩)
      else
        ([], none)
    match cr with
    | (acts, some e) => (acts, some e)
    | (acts, none) =>
      if crbDrifted then
        (acts ++ [⟨Op.update, Kind.clusterRoleBinding⟩],
          env.respond ⟨Op.update, Kind.clusterRoleBinding⟩)
      else
        (acts, none)

/-- NewReconciler registration of managed kinds with the object manager:
the service-monitor kind is added only when capability discovery reports
it available. -/
def registeredKinds (hasSvcMonitor : Bool) : List Kind :=
  [Kind.deployment, Kind.service, Kind.hpa, Kind.serviceAccount, Kind.configMap]
    ++ (if hasSvcMonitor then [Kind.serviceMonitor] else [])

/-- Modelled from the spec: NamespacedObjectManager.FetchAll (controllers/
reconcilers, not in the excerpt) — reads every registered kind once into
the per-pass cache. -/
def fetchAllActions (kinds : List Kind) : List Action :=
  kinds.map (fun k => ⟨Op.get, k⟩)

/-- The steps of one reconciliation pass, in source order. -/
inductive Step where
  | fetchAll
  | autoPatch
  | permissions
  | plugin
  | configMap
  | deployment
  | service
  | hpa
  deriving DecidableEq, Repr

/-- The fixed step order of CPReconciler.Reconcile. -/
def stepOrder : List Step :=
  [Step.fetchAll, Step.autoPatch, Step.permissions, Step.plugin,
    Step.configMap, Step.deployment, Step.service, Step.hpa]

/-- Outcomes of the eight step bodies for one pass, with the step bodies
(defined above) abstracted into their results: the config-map step yields
a digest on success and the deployment step consumes a digest. -/
structure StepResults where
  fetchAll : Option Err
  autoPatch : Option Err
  permissions : Option Err
  plugin : Option Err
  configMap : Except Err String
  deployment : String → Option Err
  service : Option Err
  hpa : Option Err

/-- Reconcile: the orchestrator of one pass, translated statement by
statement from the source: each step runs in the fixed order, the first
non-nil error is returned at once, and the digest produced by the
config-map step is the argument of the deployment step. Returns the trace
of executed steps, the returned error, and the digest handed to the
deployment step when it was reached. -/
def Reconcile (s : StepResults) : List Step × Option Err × Option String :=
  match s.fetchAll with
  | some e => ([Step.fetchAll], some e, none)
  | none =>
  match s.autoPatch with
  | some e => ([Step.fetchAll, Step.autoPatch], some e, none)
  | none =>
  match s.permissions with
  | some e => ([Step.fetchAll, Step.autoPatch, Step.permissions], some e, none)
  | none =>
  match s.plugin with
  | some e =>
    ([Step.fetchAll, Step.autoPatch, Step.permissions, Step.plugin], some e, none)
  | none =>
  match s.configMap with
  | Except.error e => (stepOrder.take 5, some e, none)
  | Except.ok cmDigest =>
  match s.deployment cmDigest with
  | some e => (stepOrder.take 6, some e, some cmDigest)
  | none =>
  match s.service with
  | some e => (stepOrder.take 7, some e, some cmDigest)
  | none =>
  match s.hpa with
  | some e => (stepOrder, some e, some cmDigest)
  | none => (stepOrder, none, some cmDigest)

/-- Outcome of one step given the step results and the digest handed to
the deployment step. -/
def outcomeOf (s : StepResults) (digest : Option String) : Step → Option Err
  | Step.fetchAll => s.fetchAll
  | Step.autoPatch => s.autoPatch
  | Step.permissions => s.permissions
  | Step.plugin => s.plugin
  | Step.configMap =>
    match s.configMap with
    | Except.ok _ => none
    | Except.error e => some e
  | Step.deployment =>
    match digest with
    | some d => s.deployment d
    | none => none
  | Step.service => s.service
  | Step.hpa => s.hpa

/-- The comparator decision only reads the port list. -/
theorem serviceNeedsUpdate_fst (svc : Service) (desired : pluginSpec)
    (report : ChangeReport) :
    (serviceNeedsUpdate svc desired report).fst =
      !(svc.spec.ports.any (fun p => p.port == desired.Port && p.protocol == "TCP")) := by
  unfold serviceNeedsUpdate
  split <;> simp_all

/-- C1: serviceNeedsUpdate returns false exactly when some existing port
entry has the desired port number with protocol TCP; otherwise it returns
true and appends "Port changed" to the report; the decision reads no
service field outside the port list; and when the service exists, a
mismatch makes the service step issue exactly one update while a match
makes it issue no service write at all. -/
theorem serviceNeedsUpdate_correct (env : ClusterEnv) (svc : Service)
    (desired : pluginSpec) (report : ChangeReport) :
    ((serviceNeedsUpdate svc desired report).fst = false ↔
      ∃ p ∈ svc.spec.ports, p.port = desired.Port ∧ p.protocol = "TCP")
    ∧ ((serviceNeedsUpdate svc desired report).fst = false →
        (serviceNeedsUpdate svc desired report).snd = report)
    ∧ ((serviceNeedsUpdate svc desired report).fst = true →
        (serviceNeedsUpdate svc desired report).snd = report.Add "Port changed")
    ∧ (∀ svc2 : Service, svc2.spec.ports = svc.spec.ports →
        serviceNeedsUpdate svc2 desired report = serviceNeedsUpdate svc desired report)
    ∧ (∀ hasSvcMonitor smPresent smChanged : Bool,
        ((serviceNeedsUpdate svc desired report).fst = true →
          countOp Op.update Kind.service
            (reconcileService env true svc desired hasSvcMonitor smPresent smChanged).fst = 1)
        ∧ ((serviceNeedsUpdate svc desired report).fst = false →
            countOp Op.update Kind.service
              (reconcileService env true svc desired hasSvcMonitor smPresent smChanged).fst = 0
            ∧ countOp Op.create Kind.service
              (reconcileService env true svc desired hasSvcMonitor smPresent smChanged).fst = 0)) := by
  refine ⟨?_, ?_, ?_, ?_, ?_⟩
  · rw [serviceNeedsUpdate_fst]
    simp [List.any_eq_true]
  · intro h
    rw [serviceNeedsUpdate_fst] at h
    have hany : svc.spec.ports.any
        (fun p => p.port == desired.Port && p.protocol == "TCP") = true := by
      simpa using h
    unfold serviceNeedsUpdate
    simp [hany]
  · intro h
    rw [serviceNeedsUpdate_fst] at h
    have hany : svc.spec.ports.any
        (fun p => p.port == desired.Port && p.protocol == "TCP") = false := by
      simpa using h
    unfold serviceNeedsUpdate
    simp [hany]
  · intro svc2 hports
    unfold serviceNeedsUpdate
    rw [hports]
  · intro hasSvcMonitor smPresent smChanged
    constructor
    · intro h
      rw [serviceNeedsUpdate_fst] at h
      have hany : svc.spec.ports.any
          (fun p => p.port == desired.Port && p.protocol == "TCP") = false := by
        simpa using h
      cases hr : env.respond ⟨Op.update, Kind.service⟩ <;>
        cases hasSvcMonitor <;> cases smPresent <;> cases smChanged <;>
        simp [reconcileService, reconcileServiceCore, serviceNeedsUpdate,
          GenericReconcile, hany, hr, countOp]
    · intro h
      rw [serviceNeedsUpdate_fst] at h
      have hany : svc.spec.ports.any
          (fun p => p.port == desired.Port && p.protocol == "TCP") = true := by
        simpa using h
      cases hasSvcMonitor <;> cases smPresent <;> cases smChanged <;>
        simp [reconcileService, reconcileServiceCore, serviceNeedsUpdate,
          GenericReconcile, hany, countOp]

/-- Witness for C1: with one existing port 9001/TCP and desired port 9000,
the comparator says changed and the service step issues exactly one
update. -/
theorem serviceNeedsUpdate_correct_witness :
    countOp Op.update Kind.service
      (reconcileService ⟨fun _ => none⟩ true
        ⟨[("app", "netobserv")], ⟨[⟨9001, "TCP"⟩]⟩⟩
        ⟨9000, true, 1, ⟨true, 1, 3, []⟩⟩ true true true).fst = 1 := by
  have h := serviceNeedsUpdate_correct ⟨fun _ => none⟩
    ⟨[("app", "netobserv")], ⟨[⟨9001, "TCP"⟩]⟩⟩
    ⟨9000, true, 1, ⟨true, 1, 3, []⟩⟩ (NewChangeReport "Console service")
  exact (h.2.2.2.2 true true true).1 (by decide)

/-- A key outside the key list of an association list looks up to none. -/
theorem lookup_eq_none_of_not_mem_keys (k : String)
    (l : List (String × String)) (h : k ∉ l.map Prod.fst) :
    l.lookup k = none := by
  induction l with
  | nil => rfl
  | cons p t ih =>
    simp only [List.map_cons, List.mem_cons, not_or] at h
    have hk : (k == p.1) = false := by
      simpa using h.1
    simp [List.lookup, hk, ih h.2]

/-- deepEqualData holds exactly when the two association lists agree as
mappings on every key. -/
theorem deepEqualData_iff (a b : List (String × String)) :
    deepEqualData a b = true ↔ ∀ k, a.lookup k = b.lookup k := by
  unfold deepEqualData
  rw [List.all_eq_true]
  constructor
  · intro h k
    by_cases ha : k ∈ a.map Prod.fst
    · simpa using h k (List.mem_append.mpr (Or.inl ha))
    · by_cases hb : k ∈ b.map Prod.fst
      · simpa using h k (List.mem_append.mpr (Or.inr hb))
      · rw [lookup_eq_none_of_not_mem_keys k a ha,
          lookup_eq_none_of_not_mem_keys k b hb]
  · intro h k _
    simp [h k]

/-- Permuting a duplicate-free association list leaves every lookup
unchanged. -/
theorem perm_lookup_eq {a b : List (String × String)} (hp : a.Perm b) :
    (a.map Prod.fst).Nodup → ∀ k, a.lookup k = b.lookup k := by
  induction hp with
  | nil =>
    intro _ k
    rfl
  | cons x hp ih =>
    intro hn k
    simp only [List.map_cons, List.nodup_cons] at hn
    cases hkx : k == x.1 with
    | true => simp [List.lookup, hkx]
    | false => simp [List.lookup, hkx, ih hn.2 k]
  | swap x y l =>
    intro hn k
    simp only [List.map_cons, List.nodup_cons, List.mem_cons, not_or] at hn
    have hxy : (y.1 == x.1) = false := by
      simpa using hn.1.1
    cases hky : k == y.1 with
    | true =>
      have hkx : (k == x.1) = false := by
        have hk : k = y.1 := by simpa using hky
        simpa [hk] using hn.1.1
      simp [List.lookup, hky, hkx]
    | false =>
      cases hkx : k == x.1 with
      | true => simp [List.lookup, hky, hkx]
      | false => simp [List.lookup, hky, hkx]
  | trans hp1 hp2 ih1 ih2 =>
    intro hn k
    have hn2 := ((hp1.map Prod.fst).nodup_iff).mp hn
    rw [ih1 hn k, ih2 hn2 k]

/-- C3: with the config map cached as existing, the step issues exactly
one update when the freshly built Data differs from the cached Data as a
mapping, and no write at all when the two agree as mappings — in
particular a mere reordering of duplicate-free bindings (equal mappings,
different serializations) issues nothing. -/
theorem reconcileConfigMap_correct (env : ClusterEnv) (oldCM newCM : ConfigMap)
    (digest : String) :
    ((reconcileConfigMap env true oldCM newCM digest).fst
        = [⟨Op.update, Kind.configMap⟩] ↔
      ¬ (∀ k, newCM.data.lookup k = oldCM.data.lookup k))
    ∧ ((reconcileConfigMap env true oldCM newCM digest).fst = [] ↔
        ∀ k, newCM.data.lookup k = oldCM.data.lookup k)
    ∧ (newCM.data.Perm oldCM.data → (newCM.data.map Prod.fst).Nodup →
        (reconcileConfigMap env true oldCM newCM digest).fst = []) := by
  have hmain : ∀ p : Prop, (deepEqualData newCM.data oldCM.data = true ↔ p) →
      ((reconcileConfigMap env true oldCM newCM digest).fst
          = [⟨Op.update, Kind.configMap⟩] ↔ ¬ p)
      ∧ ((reconcileConfigMap env true oldCM newCM digest).fst = [] ↔ p) := by
    intro p hiff
    by_cases hd : deepEqualData newCM.data oldCM.data = true
    · unfold reconcileConfigMap
      simp [hd, hiff.mp hd]
    · have hp : ¬ p := fun hpp => hd (hiff.mpr hpp)
      unfold reconcileConfigMap
      cases hr : env.respond ⟨Op.update, Kind.configMap⟩ <;>
        simp [hd, hp, hr]
  have h := hmain _ (deepEqualData_iff newCM.data oldCM.data)
  refine ⟨h.1, h.2, ?_⟩
  intro hperm hnodup
  exact h.2.mpr (perm_lookup_eq hperm hnodup)

/-- Witness for C3: reordering the bindings of a two-entry config map
issues no write. -/
theorem reconcileConfigMap_correct_witness :
    (reconcileConfigMap ⟨fun _ => none⟩ true
      ⟨[("loki", "http"), ("port", "3100")]⟩
      ⟨[("port", "3100"), ("loki", "http")]⟩ "digest").fst = [] := by
  exact (reconcileConfigMap_correct ⟨fun _ => none⟩
      ⟨[("loki", "http"), ("port", "3100")]⟩
      ⟨[("port", "3100"), ("loki", "http")]⟩ "digest").2.2
    (by decide) (by decide)

/-- C2: with autoscaling enabled the replica count is excluded from the
deployment comparison (equal templates mean no change and no update,
whatever the replica counts), with autoscaling disabled a replica-count
difference alone triggers exactly one deployment update, and the
autoscaler step then only best-effort deletes the autoscaler (delete when
cached as existing, nothing otherwise, nil result) without creating or
updating it. -/
theorem autoscalerExclusivity (env : ClusterEnv) (old newDepl : Deployment)
    (certAnnots : List (String × String)) (desired : pluginSpec)
    (oldHPA : HPA) (present : Bool) :
    (∀ (replicas : Int) (report : ChangeReport),
      old.template = newDepl.template →
      (DeploymentChanged old newDepl false replicas report).fst = false)
    ∧ (HPADisabled desired.Autoscaler = false →
        old.template = annotatePod newDepl.template certAnnots →
        (reconcileDeployment env true old newDepl certAnnots none desired).fst = [])
    ∧ (HPADisabled desired.Autoscaler = true →
        old.template = annotatePod newDepl.template certAnnots →
        old.replicas ≠ desired.Replicas →
        countOp Op.update Kind.deployment
          (reconcileDeployment env true old newDepl certAnnots none desired).fst = 1)
    ∧ (HPADisabled desired.Autoscaler = true →
        reconcileHPA env present oldHPA desired =
          ((if present then [⟨Op.delete, Kind.hpa⟩] else []), none)) := by
  refine ⟨?_, ?_, ?_, ?_⟩
  · intro replicas report h
    simp [DeploymentChanged, h]
  · intro hdis h
    unfold reconcileDeployment
    simp only [Option.some.injEq]
    have hch : (DeploymentChanged old
        { newDepl with template := annotatePod newDepl.template certAnnots }
        (HPADisabled desired.Autoscaler) desired.Replicas
        (NewChangeReport "Console deployment")).fst = false := by
      simp [DeploymentChanged, h, hdis]
    simp [hch]
  · intro hdis h hrep
    unfold reconcileDeployment
    have hch : (DeploymentChanged old
        { newDepl with template := annotatePod newDepl.template certAnnots }
        (HPADisabled desired.Autoscaler) desired.Replicas
        (NewChangeReport "Console deployment")).fst = true := by
      simp [DeploymentChanged, h, hdis, hrep]
    cases hr : env.respond ⟨Op.update, Kind.deployment⟩ <;>
      simp [hch, hr, countOp]
  · intro hdis
    unfold reconcileHPA TryDelete
    cases present <;> simp [hdis]

/-- Witness for C2: concrete disabled autoscaler, equal templates, replica
counts 2 versus 3 — exactly one deployment update and the autoscaler step
deletes the existing autoscaler with nil result. -/
theorem autoscalerExclusivity_witness :
    countOp Op.update Kind.deployment
      (reconcileDeployment ⟨fun _ => none⟩ true
        ⟨2, ⟨"img", [], [], [("c", "1")]⟩⟩ ⟨2, ⟨"img", [], [], []⟩⟩
        [("c", "1")] none ⟨9001, true, 3, ⟨true, 1, 3, []⟩⟩).fst = 1
    ∧ reconcileHPA ⟨fun _ => none⟩ true ⟨1, 3, []⟩
        ⟨9001, true, 3, ⟨true, 1, 3, []⟩⟩ = ([⟨Op.delete, Kind.hpa⟩], none) := by
  have h := autoscalerExclusivity ⟨fun _ => none⟩
    ⟨2, ⟨"img", [], [], [("c", "1")]⟩⟩ ⟨2, ⟨"img", [], [], []⟩⟩
    [("c", "1")] ⟨9001, true, 3, ⟨true, 1, 3, []⟩⟩ ⟨1, 3, []⟩ true
  refine ⟨h.2.2.1 (by decide) (by decide) (by decide), ?_⟩
  have h4 := h.2.2.2 (by decide)
  simpa using h4

/-- C10: with the autoscaler option disabled the autoscaler step returns
nil for every environment (the outcome of the best-effort delete is
dropped, so a failed delete cannot abort the pass), emits exactly the
best-effort delete trace, and never creates or updates the autoscaler. -/
theorem reconcileHPA_disabled (env : ClusterEnv) (present : Bool)
    (oldHPA : HPA) (desired : pluginSpec) :
    HPADisabled desired.Autoscaler = true →
      (reconcileHPA env present oldHPA desired).snd = none
      ∧ (reconcileHPA env present oldHPA desired).fst
          = (TryDelete env present Kind.hpa).fst
      ∧ countOp Op.create Kind.hpa (reconcileHPA env present oldHPA desired).fst = 0
      ∧ countOp Op.update Kind.hpa (reconcileHPA env present oldHPA desired).fst = 0 := by
  intro hdis
  unfold reconcileHPA TryDelete
  cases present <;> simp [hdis, countOp]

/-- Witness for C10: disabled autoscaler, existing object, an environment
that fails every call — the delete is attempted and the step still
returns nil. -/
theorem reconcileHPA_disabled_witness :
    (reconcileHPA ⟨fun _ => some "boom"⟩ true ⟨1, 3, []⟩
        ⟨9001, true, 3, ⟨true, 1, 3, []⟩⟩).snd = none
    ∧ countOp Op.create Kind.hpa
        (reconcileHPA ⟨fun _ => some "boom"⟩ true ⟨1, 3, []⟩
          ⟨9001, true, 3, ⟨true, 1, 3, []⟩⟩).fst = 0 := by
  have h := reconcileHPA_disabled ⟨fun _ => some "boom"⟩ true ⟨1, 3, []⟩
    ⟨9001, true, 3, ⟨true, 1, 3, []⟩⟩ (by decide)
  exact ⟨h.1, h.2.2.1⟩

/-- C9: for an existing cluster-scoped registration object, the plugin
step issues an update exactly when the existing service port differs from
the desired port; the decision reads no field besides the service port
(display name, service name and namespace are free), and on a port match
the step only performs its read. -/
theorem pluginNeedsUpdate_correct (env : ClusterEnv) (oldPlg : OSConsolePlugin)
    (desired : pluginSpec) :
    (pluginNeedsUpdate oldPlg desired = true ↔ oldPlg.service.port ≠ desired.Port)
    ∧ (countOp Op.update Kind.consolePlugin
        (reconcilePlugin env (PluginGet.ok oldPlg) desired).fst = 1 ↔
        oldPlg.service.port ≠ desired.Port)
    ∧ (∀ plg2 : OSConsolePlugin, plg2.service.port = oldPlg.service.port →
        pluginNeedsUpdate plg2 desired = pluginNeedsUpdate oldPlg desired)
    ∧ (oldPlg.service.port = desired.Port →
        (reconcilePlugin env (PluginGet.ok oldPlg) desired).fst
          = [⟨Op.get, Kind.consolePlugin⟩]) := by
  refine ⟨?_, ?_, ?_, ?_⟩
  · simp [pluginNeedsUpdate]
  · by_cases h : oldPlg.service.port = desired.Port
    · simp [reconcilePlugin, pluginNeedsUpdate, h, countOp]
    · have hne : (oldPlg.service.port != desired.Port) = true := by
        simpa using h
      cases hr : env.respond ⟨Op.update, Kind.consolePlugin⟩ <;>
        simp [reconcilePlugin, pluginNeedsUpdate, hne, hr, countOp, h]
  · intro plg2 hport
    simp [pluginNeedsUpdate, hport]
  · intro h
    simp [reconcilePlugin, pluginNeedsUpdate, h]

/-- Witness for C9: existing port 9000, desired port 9001, but a changed
namespace and display name — exactly one update; with matching port 9001
under the same unrelated differences, only the read happens. -/
theorem pluginNeedsUpdate_correct_witness :
    countOp Op.update Kind.consolePlugin
      (reconcilePlugin ⟨fun _ => none⟩
        (PluginGet.ok ⟨"old-name", ⟨"svc", "old-namespace", 9000⟩⟩)
        ⟨9001, true, 1, ⟨true, 1, 3, []⟩⟩).fst = 1
    ∧ (reconcilePlugin ⟨fun _ => none⟩
        (PluginGet.ok ⟨"old-name", ⟨"svc", "old-namespace", 9001⟩⟩)
        ⟨9001, true, 1, ⟨true, 1, 3, []⟩⟩).fst
        = [⟨Op.get, Kind.consolePlugin⟩] := by
  refine ⟨?_, ?_⟩
  · exact (pluginNeedsUpdate_correct ⟨fun _ => none⟩
      ⟨"old-name", ⟨"svc", "old-namespace", 9000⟩⟩
      ⟨9001, true, 1, ⟨true, 1, 3, []⟩⟩).2.1.mpr (by decide)
  · exact (pluginNeedsUpdate_correct ⟨fun _ => none⟩
      ⟨"old-name", ⟨"svc", "old-namespace", 9001⟩⟩
      ⟨9001, true, 1, ⟨true, 1, 3, []⟩⟩).2.2.2 (by decide)

/-- C4: on a reachable registration list, enabling when the name is
already present writes nothing; enabling when absent writes exactly once,
appending the name; disabling when present writes exactly once with every
occurrence of the name removed (other names untouched); disabling when
absent writes nothing. -/
theorem checkAutoPatch_toggle (plugins : List String) (updateErr : Option Err) :
    (PluginName ∈ plugins →
      (checkAutoPatch (ConsoleGet.ok ⟨plugins⟩) true updateErr).fst = [])
    ∧ (PluginName ∉ plugins →
        (checkAutoPatch (ConsoleGet.ok ⟨plugins⟩) true updateErr).fst
          = [plugins ++ [PluginName]])
    ∧ (PluginName ∈ plugins →
        (checkAutoPatch (ConsoleGet.ok ⟨plugins⟩) false updateErr).fst
          = [RemoveAllStrings plugins PluginName]
        ∧ PluginName ∉ RemoveAllStrings plugins PluginName
        ∧ ∀ x, x ≠ PluginName →
            (x ∈ RemoveAllStrings plugins PluginName ↔ x ∈ plugins))
    ∧ (PluginName ∉ plugins →
        (checkAutoPatch (ConsoleGet.ok ⟨plugins⟩) false updateErr).fst = []) := by
  refine ⟨?_, ?_, ?_, ?_⟩
  · intro h
    have hc : ContainsString plugins PluginName = true := by
      simpa [ContainsString] using h
    simp [checkAutoPatch, hc]
  · intro h
    have hc : ContainsString plugins PluginName = false := by
      simpa [ContainsString] using h
    simp [checkAutoPatch, hc]
  · intro h
    have hc : ContainsString plugins PluginName = true := by
      simpa [ContainsString] using h
    refine ⟨by simp [checkAutoPatch, hc], ?_, ?_⟩
    · simp [RemoveAllStrings, List.mem_filter]
    · intro x hx
      simp [RemoveAllStrings, List.mem_filter, hx]
  · intro h
    have hc : ContainsString plugins PluginName = false := by
      simpa [ContainsString] using h
    simp [checkAutoPatch, hc]

/-- Witness for C4: a two-name list holding the plugin name — enabling
writes nothing; disabling writes once, removing exactly the plugin
name. -/
theorem checkAutoPatch_toggle_witness :
    (checkAutoPatch (ConsoleGet.ok ⟨["other", PluginName]⟩) true none).fst = []
    ∧ (checkAutoPatch (ConsoleGet.ok ⟨["other", PluginName]⟩) false none).fst
        = [["other"]] := by
  have h := checkAutoPatch_toggle ["other", PluginName] none
  refine ⟨h.1 (by decide), ?_⟩
  have h3 := (h.2.2.1 (by decide)).1
  simpa [RemoveAllStrings, PluginName] using h3

/-- C5: a failed read of the Console resource yields a nil result and no
write; on a successful read, whenever the desired registration state
disagrees with membership, exactly one write is attempted and the outcome
of that write is what the step returns, while an agreeing state returns
nil with no write. -/
theorem checkAutoPatch_errorPolicy (e : Err) (register : Bool)
    (updateErr : Option Err) (console : Console) :
    checkAutoPatch (ConsoleGet.err e) register updateErr = ([], none)
    ∧ (register ≠ ContainsString console.plugins PluginName →
        (checkAutoPatch (ConsoleGet.ok console) register updateErr).fst.length = 1
        ∧ (checkAutoPatch (ConsoleGet.ok console) register updateErr).snd = updateErr)
    ∧ (register = ContainsString console.plugins PluginName →
        checkAutoPatch (ConsoleGet.ok console) register updateErr = ([], none)) := by
  refine ⟨rfl, ?_, ?_⟩
  · intro h
    cases hreg : register <;>
      cases hc : ContainsString console.plugins PluginName <;>
      simp_all [checkAutoPatch]
  · intro h
    cases hreg : register <;>
      cases hc : ContainsString console.plugins PluginName <;>
      simp_all [checkAutoPatch]

/-- Witness for C5: an unreachable Console resource yields nil even
though registration is desired; a reachable one with the name absent
surfaces the write error. -/
theorem checkAutoPatch_errorPolicy_witness :
    checkAutoPatch (ConsoleGet.err "unreachable") true (some "conflict")
        = ([], none)
    ∧ (checkAutoPatch (ConsoleGet.ok ⟨["other"]⟩) true (some "conflict")).snd
        = some "conflict" := by
  have h := checkAutoPatch_errorPolicy "unreachable" true (some "conflict")
    ⟨["other"]⟩
  exact ⟨h.1, (h.2.1 (by decide)).2⟩

/-- C6: every pass executes the steps as a prefix of the fixed order
fetch-all, registration, permissions, plugin, config map, deployment,
service, autoscaler; a nil result means every step ran; a non-nil result
is the outcome of the last executed step while every earlier step was
clean; and the digest handed to the deployment step is exactly the one the
config-map step produced. -/
theorem Reconcile_order (s : StepResults) :
    (∃ n, (Reconcile s).1 = stepOrder.take n)
    ∧ ((Reconcile s).2.1 = none → (Reconcile s).1 = stepOrder)
    ∧ (∀ e, (Reconcile s).2.1 = some e →
        ∃ st, (Reconcile s).1.getLast? = some st
          ∧ outcomeOf s (Reconcile s).2.2 st = some e
          ∧ ∀ st2 ∈ (Reconcile s).1.dropLast,
              outcomeOf s (Reconcile s).2.2 st2 = none)
    ∧ (∀ d, (Reconcile s).2.2 = some d → s.configMap = Except.ok d)
    ∧ (Step.deployment ∈ (Reconcile s).1 → ∃ d, (Reconcile s).2.2 = some d) := by
  cases h1 : s.fetchAll with
  | some e1 =>
    refine ⟨⟨1, ?_⟩, ?_, ?_, ?_, ?_⟩ <;>
      simp [Reconcile, stepOrder, outcomeOf, h1]
  | none =>
  cases h2 : s.autoPatch with
  | some e2 =>
    refine ⟨⟨2, ?_⟩, ?_, ?_, ?_, ?_⟩ <;>
      simp [Reconcile, stepOrder, outcomeOf, h1, h2]
  | none =>
  cases h3 : s.permissions with
  | some e3 =>
    refine ⟨⟨3, ?_⟩, ?_, ?_, ?_, ?_⟩ <;>
      simp [Reconcile, stepOrder, outcomeOf, h1, h2, h3]
  | none =>
  cases h4 : s.plugin with
  | some e4 =>
    refine ⟨⟨4, ?_⟩, ?_, ?_, ?_, ?_⟩ <;>
      simp [Reconcile, stepOrder, outcomeOf, h1, h2, h3, h4]
  | none =>
  cases h5 : s.configMap with
  | error e5 =>
    refine ⟨⟨5, ?_⟩, ?_, ?_, ?_, ?_⟩ <;>
      simp [Reconcile, stepOrder, outcomeOf, h1, h2, h3, h4, h5]
  | ok d =>
  cases h6 : s.deployment d with
  | some e6 =>
    refine ⟨⟨6, ?_⟩, ?_, ?_, ?_, ?_⟩ <;>
      simp [Reconcile, stepOrder, outcomeOf, h1, h2, h3, h4, h5, h6]
  | none =>
  cases h7 : s.service with
  | some e7 =>
    refine ⟨⟨7, ?_⟩, ?_, ?_, ?_, ?_⟩ <;>
      simp [Reconcile, stepOrder, outcomeOf, h1, h2, h3, h4, h5, h6, h7]
  | none =>
  cases h8 : s.hpa with
  | some e8 =>
    refine ⟨⟨8, ?_⟩, ?_, ?_, ?_, ?_⟩ <;>
      simp [Reconcile, stepOrder, outcomeOf, h1, h2, h3, h4, h5, h6, h7, h8]
  | none =>
    refine ⟨⟨8, ?_⟩, ?_, ?_, ?_, ?_⟩ <;>
      simp [Reconcile, stepOrder, outcomeOf, h1, h2, h3, h4, h5, h6, h7, h8]

/-- Witness for C6: a pass whose plugin step fails stops right there with
that error, having run exactly the first four steps. -/
theorem Reconcile_order_witness :
    (Reconcile ⟨none, none, none, some "plugin write failed",
        Except.ok "digest", fun _ => none, none, none⟩).1
      = [Step.fetchAll, Step.autoPatch, Step.permissions, Step.plugin]
    ∧ outcomeOf ⟨none, none, none, some "plugin write failed",
        Except.ok "digest", fun _ => none, none, none⟩
        (Reconcile ⟨none, none, none, some "plugin write failed",
          Except.ok "digest", fun _ => none, none, none⟩).2.2 Step.plugin
      = some "plugin write failed" := by
  have h := Reconcile_order ⟨none, none, none, some "plugin write failed",
    Except.ok "digest", fun _ => none, none, none⟩
  have h3 := h.2.2.1 "plugin write failed" rfl
  rcases h3 with ⟨st, hlast, hout, _⟩
  have hst : st = Step.plugin := by
    have : (Reconcile ⟨none, none, none, some "plugin write failed",
        Except.ok "digest", fun _ => none, none, none⟩).1
        = [Step.fetchAll, Step.autoPatch, Step.permissions, Step.plugin] := rfl
    rw [this] at hlast
    simpa using hlast.symm
  exact ⟨rfl, hst ▸ hout⟩

/-- Counterexample to C7 as stated: the autoscaler kind is registered
with the object manager and cached absent, yet with autoscaling disabled
its reconcile step issues zero create calls, not exactly one. -/
theorem reconcileHPA_absent_disabled_no_create :
    countOp Op.create Kind.hpa
      (reconcileHPA ⟨fun _ => none⟩ false ⟨1, 3, []⟩
        ⟨9001, true, 1, ⟨true, 1, 3, []⟩⟩).fst = 0 := by
  decide

/-- Every action of the service core is a service-kind action. -/
theorem reconcileServiceCore_kinds (env : ClusterEnv) (present : Bool)
    (oldSvc : Service) (desired : pluginSpec) (report : ChangeReport) :
    ∀ a ∈ (reconcileServiceCore env present oldSvc desired report).fst,
      a.kind = Kind.service := by
  unfold reconcileServiceCore
  split_ifs <;> simp

/-- Without the service-monitor capability the service step runs only its
core. -/
theorem reconcileService_noMonitor (env : ClusterEnv) (present : Bool)
    (oldSvc : Service) (desired : pluginSpec) (smPresent smChanged : Bool) :
    (reconcileService env present oldSvc desired false smPresent smChanged).fst
      = (reconcileServiceCore env present oldSvc desired
          (NewChangeReport "Console service")).fst := by
  unfold reconcileService
  cases hcore : reconcileServiceCore env present oldSvc desired
      (NewChangeReport "Console service") with
  | mk acts err =>
    cases err <;> simp [hcore]

/-- Counting an operation over concatenated traces adds the counts. -/
theorem countOp_append (o : Op) (k : Kind) (xs ys : List Action) :
    countOp o k (xs ++ ys) = countOp o k xs + countOp o k ys := by
  unfold countOp
  rw [List.filter_append, List.length_append]

/-- A trace without actions of a kind counts zero for that kind. -/
theorem countOp_eq_zero (o : Op) (k : Kind) (acts : List Action)
    (h : ∀ a ∈ acts, a.kind ≠ k) : countOp o k acts = 0 := by
  unfold countOp
  rw [List.length_eq_zero, List.filter_eq_nil_iff]
  intro a ha
  simp [h a ha]

/-- C7 amended: when the existing instance is recorded as absent, the
step for that kind runs no change comparator — its output is independent
of the cached old object and, on the generic path, of the change
predicate — and issues exactly one create and zero updates for that
kind, with the exceptions the step structure forces: the deployment step
issues nothing when the certificate annotation fails (it aborts with that
error before the create), the service-monitor part of the service step
runs only when the service part has not already aborted the step, and the
autoscaler step with autoscaling disabled takes the best-effort delete
branch and issues nothing. -/
theorem absentAlwaysCreates (env : ClusterEnv) (oldCM newCM : ConfigMap)
    (digest : String) (old newDepl : Deployment)
    (certAnnots : List (String × String)) (desired : pluginSpec)
    (oldSvc : Service) (oldHPA : HPA) (crDrifted crbDrifted : Bool)
    (smChanged : Bool) :
    ((reconcileConfigMap env false oldCM newCM digest).fst
        = [⟨Op.create, Kind.configMap⟩]
      ∧ ∀ oldCM2, reconcileConfigMap env false oldCM2 newCM digest
          = reconcileConfigMap env false oldCM newCM digest)
    ∧ ((reconcileDeployment env false old newDepl certAnnots none desired).fst
        = [⟨Op.create, Kind.deployment⟩]
      ∧ (∀ e, reconcileDeployment env false old newDepl certAnnots (some e) desired
          = ([], some e))
      ∧ ∀ old2 annotateErr,
          reconcileDeployment env false old2 newDepl certAnnots annotateErr desired
            = reconcileDeployment env false old newDepl certAnnots annotateErr desired)
    ∧ (∀ hasSvcMonitor smPresent smChanged2 : Bool,
        countOp Op.create Kind.service
          (reconcileService env false oldSvc desired hasSvcMonitor smPresent smChanged2).fst = 1
        ∧ countOp Op.update Kind.service
          (reconcileService env false oldSvc desired hasSvcMonitor smPresent smChanged2).fst = 0
        ∧ ∀ oldSvc2, reconcileService env false oldSvc2 desired hasSvcMonitor smPresent smChanged2
            = reconcileService env false oldSvc desired hasSvcMonitor smPresent smChanged2)
    ∧ ((GenericReconcile env Kind.serviceMonitor false smChanged).fst
        = [⟨Op.create, Kind.serviceMonitor⟩]
      ∧ (∀ smChanged2, GenericReconcile env Kind.serviceMonitor false smChanged2
          = GenericReconcile env Kind.serviceMonitor false smChanged)
      ∧ ∀ present : Bool,
          (reconcileServiceCore env present oldSvc desired
            (NewChangeReport "Console service")).snd = none →
          countOp Op.create Kind.serviceMonitor
            (reconcileService env present oldSvc desired true false smChanged).fst = 1
          ∧ countOp Op.update Kind.serviceMonitor
            (reconcileService env present oldSvc desired true false smChanged).fst = 0)
    ∧ (reconcilePermissions env false crDrifted crbDrifted).fst
        = [⟨Op.create, Kind.serviceAccount⟩]
    ∧ (HPADisabled desired.Autoscaler = false →
        (reconcileHPA env false oldHPA desired).fst = [⟨Op.create, Kind.hpa⟩])
    ∧ (HPADisabled desired.Autoscaler = true →
        (reconcileHPA env false oldHPA desired).fst = [])
    ∧ (∀ oldHPA2, reconcileHPA env false oldHPA2 desired
        = reconcileHPA env false oldHPA desired) := by
  refine ⟨⟨?_, ?_⟩, ⟨?_, ?_, ?_⟩, ?_, ⟨?_, ?_, ?_⟩, ?_, ?_, ?_, ?_⟩
  · unfold reconcileConfigMap
    cases env.respond ⟨Op.create, Kind.configMap⟩ <;> simp
  · intro oldCM2
    rfl
  · unfold reconcileDeployment
    simp
  · intro e
    rfl
  · intro old2 annotateErr
    cases annotateErr <;> rfl
  · intro hasSvcMonitor smPresent smChanged2
    refine ⟨?_, ?_, fun _ => rfl⟩ <;>
      cases hr : env.respond ⟨Op.create, Kind.service⟩ <;>
      cases hasSvcMonitor <;> cases smPresent <;> cases smChanged2 <;>
      simp [reconcileService, reconcileServiceCore, GenericReconcile, hr, countOp]
  · unfold GenericReconcile
    simp
  · intro smChanged2
    rfl
  · intro present hcore
    cases hc : reconcileServiceCore env present oldSvc desired
        (NewChangeReport "Console service") with
    | mk acts err =>
      rw [hc] at hcore
      simp only at hcore
      subst hcore
      have hkinds : ∀ a ∈ acts, a.kind ≠ Kind.serviceMonitor := by
        intro a ha
        have := reconcileServiceCore_kinds env present oldSvc desired
          (NewChangeReport "Console service") a (by rw [hc]; exact ha)
        simp [this]
      have hsvc : (reconcileService env present oldSvc desired true false smChanged).fst
          = acts ++ [⟨Op.create, Kind.serviceMonitor⟩] := by
        simp [reconcileService, hc, GenericReconcile]
      rw [hsvc, countOp_append, countOp_append,
        countOp_eq_zero Op.create Kind.serviceMonitor acts hkinds,
        countOp_eq_zero Op.update Kind.serviceMonitor acts hkinds]
      refine ⟨rfl, ?_⟩
      simp [countOp]
  · unfold reconcilePermissions
    simp
  · intro hdis
    unfold reconcileHPA
    simp [hdis]
  · intro hdis
    unfold reconcileHPA TryDelete
    simp [hdis]
  · intro oldHPA2
    unfold reconcileHPA
    rfl

/-- Witness for C7 amended: concretely, an absent config map creates
once; an absent deployment under a failed certificate annotation creates
nothing and surfaces the error; an absent service monitor behind a
healthy service part creates once; and an absent autoscaler creates once
when enabled and nothing when disabled. -/
theorem absentAlwaysCreates_witness :
    (reconcileConfigMap ⟨fun _ => none⟩ false ⟨[]⟩ ⟨[("k", "v")]⟩ "d").fst
        = [⟨Op.create, Kind.configMap⟩]
    ∧ reconcileDeployment ⟨fun _ => none⟩ false ⟨1, ⟨"img", [], [], []⟩⟩
        ⟨1, ⟨"img", [], [], []⟩⟩ [] (some "cert watch failed")
        ⟨9001, true, 1, ⟨false, 1, 3, []⟩⟩ = ([], some "cert watch failed")
    ∧ countOp Op.create Kind.serviceMonitor
        (reconcileService ⟨fun _ => none⟩ false ⟨[], ⟨[]⟩⟩
          ⟨9001, true, 1, ⟨false, 1, 3, []⟩⟩ true false true).fst = 1
    ∧ (reconcileHPA ⟨fun _ => none⟩ false ⟨1, 3, []⟩
        ⟨9001, true, 1, ⟨false, 1, 3, []⟩⟩).fst = [⟨Op.create, Kind.hpa⟩]
    ∧ (reconcileHPA ⟨fun _ => none⟩ false ⟨1, 3, []⟩
        ⟨9001, true, 1, ⟨true, 1, 3, []⟩⟩).fst = [] := by
  have h1 := absentAlwaysCreates ⟨fun _ => none⟩ ⟨[]⟩ ⟨[("k", "v")]⟩ "d"
    ⟨1, ⟨"img", [], [], []⟩⟩ ⟨1, ⟨"img", [], [], []⟩⟩ []
    ⟨9001, true, 1, ⟨false, 1, 3, []⟩⟩
    ⟨[], ⟨[]⟩⟩ ⟨1, 3, []⟩ false false true
  have h2 := absentAlwaysCreates ⟨fun _ => none⟩ ⟨[]⟩ ⟨[("k", "v")]⟩ "d"
    ⟨1, ⟨"img", [], [], []⟩⟩ ⟨1, ⟨"img", [], [], []⟩⟩ []
    ⟨9001, true, 1, ⟨true, 1, 3, []⟩⟩
    ⟨[], ⟨[]⟩⟩ ⟨1, 3, []⟩ false false true
  refine ⟨h1.1.1, h1.2.1.2.1 "cert watch failed", ?_,
    h1.2.2.2.2.2.1 (by decide), h2.2.2.2.2.2.2.1 (by decide)⟩
  exact (h1.2.2.2.1.2.2 false (by decide)).1

/-- C8: when capability discovery reports the service-monitor kind
unsupported, that kind is never registered with the object manager, the
fetch-all of the registered kinds never reads it, and no step of the pass
— service (with the gate off), config map, deployment, autoscaler,
permissions or plugin — ever emits an action of that kind. -/
theorem svcMonitorGating :
    Kind.serviceMonitor ∉ registeredKinds false
    ∧ (∀ a ∈ fetchAllActions (registeredKinds false), a.kind ≠ Kind.serviceMonitor)
    ∧ (∀ (env : ClusterEnv) (present : Bool) (oldSvc : Service)
        (desired : pluginSpec) (smPresent smChanged : Bool),
        ∀ a ∈ (reconcileService env present oldSvc desired false smPresent smChanged).fst,
          a.kind ≠ Kind.serviceMonitor)
    ∧ (∀ (env : ClusterEnv) (present : Bool) (oldCM newCM : ConfigMap)
        (digest : String),
        ∀ a ∈ (reconcileConfigMap env present oldCM newCM digest).fst,
          a.kind = Kind.configMap)
    ∧ (∀ (env : ClusterEnv) (present : Bool) (old newDepl : Deployment)
        (certAnnots : List (String × String)) (annotateErr : Option Err)
        (desired : pluginSpec),
        ∀ a ∈ (reconcileDeployment env present old newDepl certAnnots
            annotateErr desired).fst,
          a.kind = Kind.deployment)
    ∧ (∀ (env : ClusterEnv) (present : Bool) (oldHPA : HPA) (desired : pluginSpec),
        ∀ a ∈ (reconcileHPA env present oldHPA desired).fst, a.kind = Kind.hpa)
    ∧ (∀ (env : ClusterEnv) (saPresent crDrifted crbDrifted : Bool),
        ∀ a ∈ (reconcilePermissions env saPresent crDrifted crbDrifted).fst,
          a.kind ≠ Kind.serviceMonitor)
    ∧ (∀ (env : ClusterEnv) (get : PluginGet) (desired : pluginSpec),
        ∀ a ∈ (reconcilePlugin env get desired).fst,
          a.kind = Kind.consolePlugin) := by
  refine ⟨by decide, by decide, ?_, ?_, ?_, ?_, ?_, ?_⟩
  · intro env present oldSvc desired smPresent smChanged a ha
    rw [reconcileService_noMonitor] at ha
    have := reconcileServiceCore_kinds env present oldSvc desired
      (NewChangeReport "Console service") a ha
    simp [this]
  · intro env present oldCM newCM digest a ha
    unfold reconcileConfigMap at ha
    split_ifs at ha <;>
      revert ha <;>
      cases env.respond ⟨Op.create, Kind.configMap⟩ <;>
      cases env.respond ⟨Op.update, Kind.configMap⟩ <;>
      simp <;> intro ha <;> simp [ha]
  · intro env present old newDepl certAnnots annotateErr desired a ha
    unfold reconcileDeployment at ha
    cases annotateErr with
    | some e => simp at ha
    | none =>
      simp only at ha
      split_ifs at ha <;> simp_all
  · intro env present oldHPA desired a ha
    unfold reconcileHPA TryDelete at ha
    cases hd : HPADisabled desired.Autoscaler <;>
      cases present <;>
      cases hA : (AutoScalerChanged oldHPA desired.Autoscaler
        (NewChangeReport "Console autoscaler")).fst <;>
      simp [hd, hA] at ha <;>
      simp [ha]
  · intro env saPresent crDrifted crbDrifted a ha
    unfold reconcilePermissions at ha
    cases saPresent with
    | false =>
      simp at ha
      simp [ha]
    | true =>
      cases crDrifted with
      | false =>
        cases crbDrifted with
        | false => simp at ha
        | true =>
          simp at ha
          simp [ha]
      | true =>
        cases h1 : env.respond ⟨Op.update, Kind.clusterRole⟩ with
        | some e =>
          simp [h1] at ha
          simp [ha]
        | none =>
          cases crbDrifted with
          | false =>
            simp [h1] at ha
            simp [ha]
          | true =>
            simp [h1] at ha
            rcases ha with rfl | rfl <;> simp
  · intro env get desired a ha
    unfold reconcilePlugin at ha
    cases get with
    | err e =>
      simp at ha
      simp [ha]
    | notFound =>
      simp at ha
      rcases ha with rfl | rfl <;> simp
    | ok plg =>
      cases h1 : pluginNeedsUpdate plg desired with
      | false =>
        simp [h1] at ha
        simp [ha]
      | true =>
        simp [h1] at ha
        rcases ha with rfl | rfl <;> simp

/-- Witness for C8: the one action of a concrete gated service pass is a
service-kind action, hence not a service-monitor one. -/
theorem svcMonitorGating_witness :
    (⟨Op.create, Kind.service⟩ : Action).kind ≠ Kind.serviceMonitor := by
  exact svcMonitorGating.2.2.1 ⟨fun _ => none⟩ false ⟨[], ⟨[]⟩⟩
    ⟨9001, true, 1, ⟨true, 1, 3, []⟩⟩ true true
    ⟨Op.create, Kind.service⟩ (by decide)

end NetObserv
